import Mathlib

/-
Verification of the hotel_booking repository's booking lifecycle,
room-availability and payment-reconciliation logic.

The Python source is shallowly embedded:
 - Django DecimalField monetary values become Int (the claims use exact
   arithmetic; no rounding is at stake).
 - DateField values become Int day numbers; DateTimeField values become
   Int ticks supplied explicitly as a `now` argument (timezone.now()).
 - A booking's related Payment rows (booking.payments) are carried as a
   List Payment field on the Booking structure; Payment.objects.create
   with booking=b is an append to that list.
 - Raising an exception / serializers.ValidationError becomes Except.
-/

namespace HotelBooking

/-- Booking lifecycle status, Booking.STATUS_* in bookings/models.py. -/
inductive BookingStatus
  | pending
  | confirmed
  | checked_in
  | checked_out
  | cancelled
  | no_show
deriving DecidableEq, Repr

/-- Booking payment status, Booking.PAYMENT_* in bookings/models.py. -/
inductive BookingPaymentStatus
  | pending
  | paid
  | partially_paid
  | refunded
  | failed
deriving DecidableEq, Repr

/-- Payment row status, Payment.STATUS_* in bookings/models.py. -/
inductive PaymentRowStatus
  | pending
  | completed
  | failed
  | refunded
deriving DecidableEq, Repr

/-- A Payment row (bookings/models.py, class Payment), restricted to the
fields the claims touch: amount, payment_method, transaction_id, status. -/
structure Payment where
  amount : Int
  payment_method : String
  transaction_id : Option String
  status : PaymentRowStatus
deriving DecidableEq, Repr

/-- A Booking row (bookings/models.py, class Booking), restricted to the
fields the claims touch.  `room` is the referenced room's id; `payments`
holds the Payment rows whose booking foreign key is this booking. -/
structure Booking where
  booking_number : String
  room : Nat
  check_in_date : Int
  check_out_date : Int
  status : BookingStatus
  payment_status : BookingPaymentStatus
  total_price : Int
  paid_amount : Int
  confirmed_at : Option Int
  checked_in_at : Option Int
  checked_out_at : Option Int
  cancelled_at : Option Int
  payments : List Payment
deriving DecidableEq, Repr

/-- Sum of the amounts of the completed payment rows:
`booking.payments.filter(status=COMPLETED).aggregate(Sum(amount)) or 0`
in bookings/signals.py. -/
def completedSum : List Payment → Int
  | [] => 0
  | p :: ps =>
    (if p.status = PaymentRowStatus.completed then p.amount else 0) + completedSum ps

/-- Booking.record_payment (bookings/models.py lines 126-143): increments
paid_amount by the amount, rederives payment_status (with no branch for a
zero paid_amount), then creates a completed Payment row with the default
method credit_card. -/
def record_payment (b : Booking) (amount : Int) : Booking :=
  let paid := b.paid_amount + amount
  let pstatus :=
    if paid ≥ b.total_price then BookingPaymentStatus.paid
    else if paid > 0 then BookingPaymentStatus.partially_paid
    else b.payment_status
  { b with
      paid_amount := paid,
      payment_status := pstatus,
      payments := b.payments ++
        [{ amount := amount, payment_method := "credit_card",
           transaction_id := none, status := PaymentRowStatus.completed }] }

/-- The runtime error raised inside the update_booking_payment_status
receiver: its aggregation expression references the module name `models`
(models.Sum), which bookings/signals.py never imports. -/
inductive SignalError
  | name_error_models_unbound
deriving DecidableEq, Repr

/-- The post_save receiver update_booking_payment_status
(bookings/signals.py lines 38-58), invoked after a Payment row is saved.
Its guard passes for a newly created row with status completed; the body's
first statement evaluates `models.Sum('amount')`, and `models` is an
unbound name in signals.py (lines 1-3 import only the signal machinery and
the two model classes), so the receiver raises NameError before computing
the completed-payment sum — the booking comes back unchanged only when the
guard fails. -/
def update_booking_payment_status (b : Booking) (p : Payment) (created : Bool) :
    Except SignalError Booking :=
  if created = true ∧ p.status = PaymentRowStatus.completed then
    .error SignalError.name_error_models_unbound
  else .ok b

/-- Booking.balance_due (bookings/models.py lines 150-153):
`max(0, self.total_price - self.paid_amount)`. -/
def balance_due (b : Booking) : Int :=
  max 0 (b.total_price - b.paid_amount)

/-- Error outcomes of PaymentService.process_payment (core/services.py):
the two PaymentError raises at lines 121-125. -/
inductive PaymentProcessError
  | non_positive_amount
  | exceeds_balance_due
deriving DecidableEq, Repr

/-- PaymentService.process_payment (core/services.py lines 112-146):
validates the amount against zero and the balance due, creates a completed
Payment row, then calls booking.record_payment(amount) — which creates a
second completed Payment row of its own. -/
def process_payment (b : Booking) (amount : Int) (payment_method : String)
    (transaction_id : Option String) : Except PaymentProcessError (Booking × Payment) :=
  if amount ≤ 0 then .error .non_positive_amount
  else if amount > balance_due b then .error .exceeds_balance_due
  else
    let payment : Payment :=
      { amount := amount, payment_method := payment_method,
        transaction_id := transaction_id, status := PaymentRowStatus.completed }
    let b1 : Booking := { b with payments := b.payments ++ [payment] }
    .ok (record_payment b1 amount, payment)

/-- StripeWebhookView._handle_payment_success
(bookings/payment_views.py lines 81-102): creates a completed Payment row
for the intent, then calls booking.record_payment(amount). -/
def handle_payment_success (b : Booking) (amount : Int) (intent_id : String) : Booking :=
  let b1 : Booking :=
    { b with payments := b.payments ++
        [{ amount := amount, payment_method := "credit_card",
           transaction_id := some intent_id, status := PaymentRowStatus.completed }] }
  record_payment b1 amount

/-- The completed-payment sum distributes over list append. -/
theorem completedSum_append (xs ys : List Payment) :
    completedSum (xs ++ ys) = completedSum xs + completedSum ys := by
  induction xs with
  | nil => simp [completedSum]
  | cons p ps ih => simp [completedSum, ih]; ring

/-- A concrete fresh booking used to exercise the payment paths. -/
def sampleBooking : Booking :=
  { booking_number := "BK20250601100000", room := 1,
    check_in_date := 0, check_out_date := 3,
    status := BookingStatus.pending, payment_status := BookingPaymentStatus.pending,
    total_price := 100, paid_amount := 0,
    confirmed_at := none, checked_in_at := none,
    checked_out_at := none, cancelled_at := none,
    payments := [] }

/-- C1 counterexample: starting from a fresh booking with total_price 100,
a successful process_payment of 10 runs record_payment to completion and
leaves paid_amount = 10, while the completed Payment rows for the booking
sum to 20 (two rows are created): paid_amount is an incremental add, not a
recomputation from the payment set and does not equal that sum. -/
theorem record_payment_not_recompute :
    (process_payment sampleBooking 10 "cash" none).map
        (fun r => (r.1.paid_amount, completedSum r.1.payments))
      = Except.ok ((10 : Int), (20 : Int)) ∧ (10 : Int) ≠ 20 := by
  constructor
  · rfl
  · decide

/-- C1 (amended): record_payment performs an incremental add — it bumps
paid_amount by the payment amount and appends exactly one completed row of
that amount, so it preserves the equality between paid_amount and the
completed-payment sum only when that equality held before the call; and no
recomputation from the payment set ever executes, because the receiver
that would recompute raises NameError (unbound name models) on every
completed-payment creation. -/
theorem record_payment_preserves_completed_sum (b : Booking) (amount : Int)
    (p : Payment) (h : b.paid_amount = completedSum b.payments)
    (hp : p.status = PaymentRowStatus.completed) :
    (record_payment b amount).paid_amount
        = completedSum (record_payment b amount).payments ∧
    update_booking_payment_status b p true
        = .error SignalError.name_error_models_unbound := by
  constructor
  · simp [record_payment, completedSum_append, completedSum, h]
  · simp [update_booking_payment_status, hp]

/-- C1 witness: the amended statement at a concrete booking whose
paid_amount (0) matches its empty completed-payment set, with a concrete
completed payment row of 5 triggering the receiver. -/
theorem record_payment_preserves_completed_sum_witness :
    (record_payment sampleBooking 10).paid_amount
        = completedSum (record_payment sampleBooking 10).payments ∧
    update_booking_payment_status sampleBooking
        { amount := 5, payment_method := "cash", transaction_id := none,
          status := PaymentRowStatus.completed } true
      = .error SignalError.name_error_models_unbound :=
  record_payment_preserves_completed_sum sampleBooking 10
    { amount := 5, payment_method := "cash", transaction_id := none,
      status := PaymentRowStatus.completed } (by decide) (by decide)

/-- C4: process_payment accepts a payment exactly when 0 < amount and
amount ≤ balance_due; a non-positive amount fails with the
amount-must-be-positive error, an overpayment fails with the
exceeds-balance-due error, and in either failure case only the error is
returned — no Payment row is created and the booking (paid_amount and
payment_status included) is left untouched. -/
theorem process_payment_validates_amount (b : Booking) (amount : Int)
    (method : String) (txid : Option String) :
    (amount ≤ 0 →
      process_payment b amount method txid = .error .non_positive_amount) ∧
    (0 < amount → balance_due b < amount →
      process_payment b amount method txid = .error .exceeds_balance_due) ∧
    ((∃ r, process_payment b amount method txid = Except.ok r) ↔
      0 < amount ∧ amount ≤ balance_due b) := by
  refine ⟨fun h => ?_, fun h1 h2 => ?_, ?_⟩
  · simp [process_payment, h]
  · simp [process_payment, not_le.mpr h1, h2]
  · constructor
    · rintro ⟨r, hr⟩
      by_cases hpos : amount ≤ 0
      · simp [process_payment, hpos] at hr
      · by_cases hbal : amount > balance_due b
        · simp [process_payment, hpos, hbal] at hr
        · exact ⟨lt_of_not_le hpos, le_of_not_lt hbal⟩
    · rintro ⟨h1, h2⟩
      exact ⟨(record_payment
          { b with payments := b.payments ++
              [{ amount := amount, payment_method := method, transaction_id := txid,
                 status := PaymentRowStatus.completed }] } amount,
          { amount := amount, payment_method := method, transaction_id := txid,
            status := PaymentRowStatus.completed }),
        by simp [process_payment, not_le.mpr h1, not_lt.mpr h2]⟩

/-- C4 witness: the theorem at concrete inputs — amount 0 is rejected as
non-positive, amount 150 against a balance due of 100 is rejected as
exceeding the balance, and amount 10 is accepted. -/
theorem process_payment_validates_amount_witness :
    process_payment sampleBooking 0 "cash" none
        = .error .non_positive_amount ∧
    process_payment sampleBooking 150 "cash" none
        = .error .exceeds_balance_due ∧
    (∃ r, process_payment sampleBooking 10 "cash" none = Except.ok r) :=
  ⟨(process_payment_validates_amount sampleBooking 0 "cash" none).1 (by decide),
   (process_payment_validates_amount sampleBooking 150 "cash" none).2.1
      (by decide) (by decide),
   (process_payment_validates_amount sampleBooking 10 "cash" none).2.2.mpr
      ⟨by decide, by decide⟩⟩

/-- C5: every accepted process_payment of amount a appends exactly two
completed Payment rows of amount a to the booking — the row the service
creates itself, then the row record_payment creates (method credit_card,
no transaction id) — so the stored completed-payment total grows by 2*a
while paid_amount grows only by a; the Stripe payment-succeeded webhook
handler does the same pair of inserts unconditionally. -/
theorem process_payment_creates_two_rows (b : Booking) (amount : Int)
    (method : String) (txid : Option String) (intent_id : String)
    (h1 : 0 < amount) (h2 : amount ≤ balance_due b) :
    (∃ b', process_payment b amount method txid =
        Except.ok (b', { amount := amount, payment_method := method,
                         transaction_id := txid,
                         status := PaymentRowStatus.completed }) ∧
      b'.payments = b.payments ++
        [{ amount := amount, payment_method := method, transaction_id := txid,
           status := PaymentRowStatus.completed },
         { amount := amount, payment_method := "credit_card",
           transaction_id := none, status := PaymentRowStatus.completed }] ∧
      completedSum b'.payments = completedSum b.payments + 2 * amount ∧
      b'.paid_amount = b.paid_amount + amount) ∧
    ((handle_payment_success b amount intent_id).payments = b.payments ++
        [{ amount := amount, payment_method := "credit_card",
           transaction_id := some intent_id,
           status := PaymentRowStatus.completed },
         { amount := amount, payment_method := "credit_card",
           transaction_id := none, status := PaymentRowStatus.completed }] ∧
      completedSum (handle_payment_success b amount intent_id).payments
        = completedSum b.payments + 2 * amount) := by
  constructor
  · refine ⟨record_payment
        { b with payments := b.payments ++
            [{ amount := amount, payment_method := method, transaction_id := txid,
               status := PaymentRowStatus.completed }] } amount, ?_, ?_, ?_, ?_⟩
    · simp [process_payment, not_le.mpr h1, not_lt.mpr h2]
    · simp [record_payment]
    · simp [record_payment, completedSum_append, completedSum]
      ring
    · simp [record_payment]
  · refine ⟨?_, ?_⟩
    · simp [handle_payment_success, record_payment]
    · simp [handle_payment_success, record_payment, completedSum_append, completedSum]
      ring

/-- C5 witness: the theorem at a concrete fresh booking and payment of 10:
both rows land and the completed total grows from 0 to 20. -/
theorem process_payment_creates_two_rows_witness :
    (∃ b', process_payment sampleBooking 10 "cash" none =
        Except.ok (b', { amount := 10, payment_method := "cash",
                         transaction_id := none,
                         status := PaymentRowStatus.completed }) ∧
      b'.payments = sampleBooking.payments ++
        [{ amount := 10, payment_method := "cash", transaction_id := none,
           status := PaymentRowStatus.completed },
         { amount := 10, payment_method := "credit_card",
           transaction_id := none, status := PaymentRowStatus.completed }] ∧
      completedSum b'.payments = completedSum sampleBooking.payments + 2 * 10 ∧
      b'.paid_amount = sampleBooking.paid_amount + 10) ∧
    ((handle_payment_success sampleBooking 10 "pi_1").payments =
        sampleBooking.payments ++
        [{ amount := 10, payment_method := "credit_card",
           transaction_id := some "pi_1",
           status := PaymentRowStatus.completed },
         { amount := 10, payment_method := "credit_card",
           transaction_id := none, status := PaymentRowStatus.completed }] ∧
      completedSum (handle_payment_success sampleBooking 10 "pi_1").payments
        = completedSum sampleBooking.payments + 2 * 10) :=
  process_payment_creates_two_rows sampleBooking 10 "cash" none "pi_1"
    (by decide) (by decide)

/-- C6: at the failing input — a newly created completed Payment row of
10 on a fresh booking — the reconciliation receiver raises NameError
(unbound name models) instead of deriving payment_status by the mapping,
and the derivation that does execute, record_payment, has no pending
branch: a booking whose paid_amount is still zero after the call (amount
zero here, since record_payment itself validates nothing) keeps its prior
payment_status failed instead of being set to pending. -/
theorem payment_reconciliation_never_runs :
    update_booking_payment_status sampleBooking
        { amount := 10, payment_method := "cash", transaction_id := none,
          status := PaymentRowStatus.completed } true
      = .error SignalError.name_error_models_unbound ∧
    (record_payment
        { sampleBooking with payment_status := BookingPaymentStatus.failed }
        0).payment_status = BookingPaymentStatus.failed := by
  constructor
  · rfl
  · rfl

/-- A sequence of PaymentService.process_payment calls on one booking,
stopping at the first rejected payment (the method and transaction id play
no role in acceptance). -/
def process_payment_seq : Booking → List Int → Except PaymentProcessError Booking
  | b, [] => .ok b
  | b, a :: rest =>
    match process_payment b a "cash" none with
    | .error e => .error e
    | .ok (b', _) => process_payment_seq b' rest

/-- An accepted process_payment has a positive amount within the balance
due, adds exactly that amount to paid_amount, and leaves total_price
unchanged. -/
theorem process_payment_ok_facts (b : Booking) (amount : Int) (method : String)
    (txid : Option String) (b' : Booking) (p : Payment)
    (h : process_payment b amount method txid = .ok (b', p)) :
    0 < amount ∧ amount ≤ balance_due b ∧
    b'.paid_amount = b.paid_amount + amount ∧ b'.total_price = b.total_price := by
  by_cases hpos : amount ≤ 0
  · simp [process_payment, hpos] at h
  · by_cases hbal : amount > balance_due b
    · simp [process_payment, hpos, hbal] at h
    · refine ⟨lt_of_not_le hpos, le_of_not_lt hbal, ?_, ?_⟩ <;>
      · simp [process_payment, hpos, hbal] at h
        rw [← h.1]
        simp [record_payment]

/-- Along an all-accepted payment sequence, total_price is constant and
paid_amount grows by the sum of the amounts while staying at or below
total_price (given it started there). -/
theorem process_payment_seq_invariant (amounts : List Int) (b b' : Booking)
    (hle : b.paid_amount ≤ b.total_price)
    (h : process_payment_seq b amounts = .ok b') :
    b'.total_price = b.total_price ∧
    b'.paid_amount = b.paid_amount + amounts.sum ∧
    b'.paid_amount ≤ b.total_price := by
  induction amounts generalizing b with
  | nil =>
    simp [process_payment_seq] at h
    subst h
    simpa using hle
  | cons a rest ih =>
    rw [process_payment_seq] at h
    cases hp : process_payment b a "cash" none with
    | error e => rw [hp] at h; cases h
    | ok r =>
      rw [hp] at h
      obtain ⟨hpos, hbal, hpaid, htot⟩ :=
        process_payment_ok_facts b a "cash" none r.1 r.2 (by rw [hp])
      have hstep : r.1.paid_amount ≤ r.1.total_price := by
        rw [hpaid, htot]
        have : balance_due b = b.total_price - b.paid_amount := by
          simp [balance_due, max_eq_right (sub_nonneg.mpr hle)]
        omega
      obtain ⟨h1, h2, h3⟩ := ih r.1 hstep h
      refine ⟨h1.trans htot, ?_, ?_⟩
      · rw [h2, hpaid]; simp; ring
      · rw [htot] at h3; exact h3

/-- C7: balance_due is by definition max(0, total_price - paid_amount) and
hence never negative, for every booking; and after a sequence of accepted
payments with amounts summing to S, applied to a booking that started with
paid_amount = 0 (and a non-negative total_price), the sum S is forced to be
at most total_price and the remaining balance_due equals total_price - S. -/
theorem balance_due_after_payments (b : Booking) (amounts : List Int) (b' : Booking)
    (h0 : b.paid_amount = 0) (hT : 0 ≤ b.total_price)
    (h : process_payment_seq b amounts = .ok b') :
    (∀ bk : Booking, balance_due bk = max 0 (bk.total_price - bk.paid_amount) ∧
      0 ≤ balance_due bk) ∧
    amounts.sum ≤ b.total_price ∧
    balance_due b' = b.total_price - amounts.sum := by
  obtain ⟨h1, h2, h3⟩ :=
    process_payment_seq_invariant amounts b b' (by rw [h0]; exact hT) h
  refine ⟨fun bk => ⟨rfl, le_max_left 0 _⟩, ?_, ?_⟩
  · rw [h2, h0] at h3; simpa using h3
  · rw [balance_due, h1, h2, h0]
    rw [h2, h0] at h3
    simp at h3 ⊢
    omega

/-- C7 witness: the spec's own scenario — total_price 300, accepted
payments of 100 then 200: the sum 300 is within the total and the final
balance due is 0. -/
theorem balance_due_after_payments_witness :
    (∀ bk : Booking, balance_due bk = max 0 (bk.total_price - bk.paid_amount) ∧
      0 ≤ balance_due bk) ∧
    ([(100 : Int), 200].sum ≤ ({ sampleBooking with total_price := 300 } : Booking).total_price) ∧
    (∃ b', process_payment_seq { sampleBooking with total_price := 300 } [100, 200]
        = .ok b' ∧ balance_due b' = 0) := by
  have h : process_payment_seq { sampleBooking with total_price := 300 } [100, 200]
      = .ok ((process_payment_seq { sampleBooking with total_price := 300 }
              [100, 200]).toOption.getD sampleBooking) := by rfl
  obtain ⟨ha, hb, hc⟩ := balance_due_after_payments
    { sampleBooking with total_price := 300 } [100, 200] _ (by decide) (by decide) h
  exact ⟨ha, hb, ⟨_, h, by rw [hc]; decide⟩⟩

/-- The transition table of BookingStatusUpdateSerializer.validate_status
(bookings/serializers.py lines 112-119). -/
def valid_transitions : BookingStatus → List BookingStatus
  | .pending => [.confirmed, .cancelled]
  | .confirmed => [.checked_in, .cancelled, .no_show]
  | .checked_in => [.checked_out]
  | .checked_out => []
  | .cancelled => []
  | .no_show => []

/-- Booking.confirm (bookings/models.py lines 97-101): sets the status and
stamps confirmed_at with the current time. -/
def Booking.confirm (b : Booking) (now : Int) : Booking :=
  { b with status := BookingStatus.confirmed, confirmed_at := some now }

/-- Booking.check_in (bookings/models.py lines 103-107). -/
def Booking.check_in (b : Booking) (now : Int) : Booking :=
  { b with status := BookingStatus.checked_in, checked_in_at := some now }

/-- Booking.check_out (bookings/models.py lines 109-113). -/
def Booking.check_out (b : Booking) (now : Int) : Booking :=
  { b with status := BookingStatus.checked_out, checked_out_at := some now }

/-- Booking.cancel (bookings/models.py lines 115-119). -/
def Booking.cancel (b : Booking) (now : Int) : Booking :=
  { b with status := BookingStatus.cancelled, cancelled_at := some now }

/-- Booking.mark_as_no_show (bookings/models.py lines 121-124): sets the
status only — there is no no-show timestamp field. -/
def Booking.mark_as_no_show (b : Booking) : Booking :=
  { b with status := BookingStatus.no_show }

/-- The InvalidTransitionError payload raised by
BookingStatusUpdateSerializer.validate_status: current state, requested
state, and the allowed set. -/
structure InvalidTransitionError where
  current : BookingStatus
  requested : BookingStatus
  allowed : List BookingStatus
deriving DecidableEq, Repr

/-- BookingStatusUpdateSerializer (bookings/serializers.py lines 104-144):
validate_status rejects any requested status outside
valid_transitions[current] and update dispatches to the model method for
the accepted status. -/
def booking_status_update (b : Booking) (value : BookingStatus) (now : Int) :
    Except InvalidTransitionError Booking :=
  if value ∈ valid_transitions b.status then
    .ok (match value with
      | .confirmed => b.confirm now
      | .checked_in => b.check_in now
      | .checked_out => b.check_out now
      | .cancelled => b.cancel now
      | .no_show => b.mark_as_no_show
      | .pending => b)
  else
    .error { current := b.status, requested := value,
             allowed := valid_transitions b.status }

/-- BookingViewSet.cancel (bookings/views.py lines 106-121): rejects only
the three terminal states, so it also lets a checked-in booking be
cancelled. -/
def cancel_view (b : Booking) (now : Int) : Except String Booking :=
  if b.status ∈ [BookingStatus.checked_out, BookingStatus.cancelled,
                 BookingStatus.no_show] then
    .error "Cannot cancel booking"
  else
    .ok { b with status := BookingStatus.cancelled, cancelled_at := some now }

/-- C3 counterexample: a checked-in booking — the pair
(checked_in, cancelled) is not in the transition table, yet the viewset
cancel endpoint accepts it and produces a cancelled booking instead of
failing with InvalidTransitionError. -/
theorem cancel_view_allows_checked_in :
    BookingStatus.cancelled ∉ valid_transitions BookingStatus.checked_in ∧
    cancel_view { sampleBooking with status := BookingStatus.checked_in } 5
      = Except.ok ({ sampleBooking with
          status := BookingStatus.cancelled,
          cancelled_at := some 5 }) := by
  constructor
  · decide
  · rfl

/-- C3 (amended): the serializer-driven status update enforces the
transition table exactly — a requested state outside the table's row for
the current state fails with InvalidTransitionError carrying the current
state, the request and the allowed set (mutating nothing), while a
requested state in the row succeeds, sets the new status and stamps
exactly the corresponding timestamp, leaving every other field unchanged;
the viewset cancel endpoint, however, additionally accepts
checked_in → cancelled. -/
theorem booking_status_update_follows_table (b : Booking) (t : BookingStatus)
    (now : Int) :
    (t ∉ valid_transitions b.status →
      booking_status_update b t now =
        .error { current := b.status, requested := t,
                 allowed := valid_transitions b.status }) ∧
    (t ∈ valid_transitions b.status →
      booking_status_update b t now = Except.ok
        { b with
            status := t,
            confirmed_at :=
              if t = BookingStatus.confirmed then some now else b.confirmed_at,
            checked_in_at :=
              if t = BookingStatus.checked_in then some now else b.checked_in_at,
            checked_out_at :=
              if t = BookingStatus.checked_out then some now else b.checked_out_at,
            cancelled_at :=
              if t = BookingStatus.cancelled then some now else b.cancelled_at }) := by
  constructor
  · intro h
    simp [booking_status_update, h]
  · intro h
    cases hs : b.status <;> rw [hs] at h <;> cases t <;>
      first
        | exact absurd h (by decide)
        | simp [booking_status_update, hs, valid_transitions, Booking.confirm,
            Booking.check_in, Booking.check_out, Booking.cancel,
            Booking.mark_as_no_show]

/-- C3 witness: the theorem at concrete inputs — requesting checked_out
from a pending booking fails with the table error, and requesting
confirmed from a pending booking succeeds, stamping only confirmed_at. -/
theorem booking_status_update_follows_table_witness :
    booking_status_update sampleBooking BookingStatus.checked_out 7 =
      .error { current := BookingStatus.pending,
               requested := BookingStatus.checked_out,
               allowed := [BookingStatus.confirmed, BookingStatus.cancelled] } ∧
    booking_status_update sampleBooking BookingStatus.confirmed 7 = Except.ok
      { sampleBooking with
          status := BookingStatus.confirmed,
          confirmed_at :=
            if BookingStatus.confirmed = BookingStatus.confirmed then some 7
            else sampleBooking.confirmed_at,
          checked_in_at :=
            if BookingStatus.confirmed = BookingStatus.checked_in then some 7
            else sampleBooking.checked_in_at,
          checked_out_at :=
            if BookingStatus.confirmed = BookingStatus.checked_out then some 7
            else sampleBooking.checked_out_at,
          cancelled_at :=
            if BookingStatus.confirmed = BookingStatus.cancelled then some 7
            else sampleBooking.cancelled_at } :=
  ⟨(booking_status_update_follows_table sampleBooking BookingStatus.checked_out 7).1
      (by decide),
   (booking_status_update_follows_table sampleBooking BookingStatus.confirmed 7).2
      (by decide)⟩

/-- Error outcomes of the serializer-level booking validations
(serializers.ValidationError with the respective messages). -/
inductive BookingValidationError
  | check_out_not_after_check_in
  | check_in_in_past
  | room_unavailable
  | stay_exceeds_maximum
deriving DecidableEq, Repr

/-- The overlap filter of BookingSerializer.validate
(bookings/serializers.py lines 60-65): same room, strictly overlapping
half-open interval, and status in the active set
pending/confirmed/checked_in. -/
def is_overlapping_active (bk : Booking) (room : Nat)
    (check_in_date check_out_date : Int) : Prop :=
  bk.room = room ∧ bk.check_in_date < check_out_date ∧
    bk.check_out_date > check_in_date ∧
    bk.status ∈ [BookingStatus.pending, BookingStatus.confirmed,
                 BookingStatus.checked_in]

instance (bk : Booking) (room : Nat) (cin cout : Int) :
    Decidable (is_overlapping_active bk room cin cout) := by
  unfold is_overlapping_active
  infer_instance

/-- BookingSerializer.validate (bookings/serializers.py lines 38-72):
checks check_out after check_in, check_in not past, and — only when
creating (self.instance is None) — that no overlapping booking with an
active status exists on the room.  `existing` is the Booking table. -/
def booking_serializer_validate (existing : List Booking) (is_create : Bool)
    (room : Nat) (check_in_date check_out_date today : Int) :
    Except BookingValidationError Unit :=
  if check_out_date ≤ check_in_date then .error .check_out_not_after_check_in
  else if check_in_date < today then .error .check_in_in_past
  else if is_create = true ∧
      ∃ bk ∈ existing, is_overlapping_active bk room check_in_date check_out_date
    then .error .room_unavailable
  else .ok ()

/-- The overlap filter of BookingValidationMixin.validate_room_availability
(core/validators.py lines 54-59): same room, strictly overlapping
interval, and status in [confirmed, checked_in] — pending is not in this
set. -/
def is_overlapping_confirmed (bk : Booking) (room : Nat) (cin cout : Int) : Prop :=
  bk.room = room ∧ bk.check_in_date < cout ∧ bk.check_out_date > cin ∧
    bk.status ∈ [BookingStatus.confirmed, BookingStatus.checked_in]

instance (bk : Booking) (room : Nat) (cin cout : Int) :
    Decidable (is_overlapping_confirmed bk room cin cout) := by
  unfold is_overlapping_confirmed
  infer_instance

/-- BookingValidationMixin.validate_room_availability
(core/validators.py lines 42-72): rejects when some booking other than the
instance under mutation (given by primary key) overlaps with status
confirmed or checked_in.  `existing` pairs each booking with its pk. -/
def validate_room_availability (existing : List (Nat × Booking))
    (instance_pk : Option Nat) (room : Nat) (cin cout : Int) :
    Except BookingValidationError Unit :=
  if ∃ pb ∈ existing, instance_pk ≠ some pb.1 ∧
      is_overlapping_confirmed pb.2 room cin cout
    then .error .room_unavailable
  else .ok ()

/-- BookingValidationMixin.validate_dates (core/validators.py lines
10-40): check_in not in the past, check_out strictly after check_in, and
the stay at most the 30-day maximum (both dates assumed present). -/
def validate_dates (check_in_date check_out_date today : Int) :
    Except BookingValidationError Unit :=
  if check_in_date < today then .error .check_in_in_past
  else if check_out_date ≤ check_in_date then .error .check_out_not_after_check_in
  else if check_out_date - check_in_date > 30 then .error .stay_exceeds_maximum
  else .ok ()

/-- A booking with status pending occupying room 1 on the half-open
interval from day 10 to day 20. -/
def overlappingPendingBooking : Booking :=
  { sampleBooking with
      room := 1, check_in_date := 10, check_out_date := 20,
      status := BookingStatus.pending }

/-- C2 counterexample: an overlapping booking with the active status
pending exists on the requested room and interval, yet the mixin
availability check (whose status filter is only confirmed/checked_in)
reports the room as available — creation through it does not fail. -/
theorem mixin_availability_misses_pending :
    is_overlapping_active overlappingPendingBooking 1 12 18 ∧
    validate_room_availability [(7, overlappingPendingBooking)] none 1 12 18
      = Except.ok () := by
  constructor
  · decide
  · rfl

/-- C2 (amended): for the creation path of BookingSerializer.validate
(well-formed future dates), rejection for unavailability happens exactly
when a booking on the requested room with status in
pending/confirmed/checked_in strictly overlaps the requested half-open
interval — no other data decides that path; the mixin path
validate_room_availability, by contrast, filters only on
confirmed/checked_in (it does exclude the booking under mutation), so an
overlapping pending booking does not block it. -/
theorem serializer_availability_iff (existing : List Booking) (room : Nat)
    (cin cout today : Int) (h1 : today ≤ cin) (h2 : cin < cout) :
    (booking_serializer_validate existing true room cin cout today
        = .error .room_unavailable ↔
      ∃ bk ∈ existing, bk.room = room ∧ bk.check_in_date < cout ∧
        bk.check_out_date > cin ∧
        bk.status ∈ [BookingStatus.pending, BookingStatus.confirmed,
                     BookingStatus.checked_in]) ∧
    (booking_serializer_validate existing true room cin cout today
        = Except.ok () ↔
      ¬ ∃ bk ∈ existing, bk.room = room ∧ bk.check_in_date < cout ∧
        bk.check_out_date > cin ∧
        bk.status ∈ [BookingStatus.pending, BookingStatus.confirmed,
                     BookingStatus.checked_in]) := by
  have hd1 : ¬ (cout ≤ cin) := not_le.mpr h2
  have hd2 : ¬ (cin < today) := not_lt.mpr h1
  have hiff : (∃ bk ∈ existing, is_overlapping_active bk room cin cout) ↔
      (∃ bk ∈ existing, bk.room = room ∧ bk.check_in_date < cout ∧
        bk.check_out_date > cin ∧
        bk.status ∈ [BookingStatus.pending, BookingStatus.confirmed,
                     BookingStatus.checked_in]) := Iff.rfl
  by_cases hov : ∃ bk ∈ existing, is_overlapping_active bk room cin cout
  · have hres : booking_serializer_validate existing true room cin cout today
        = .error .room_unavailable := by
      simp only [booking_serializer_validate, if_neg hd1, if_neg hd2]
      exact if_pos (And.intro trivial hov)
    refine ⟨iff_of_true hres (hiff.mp hov), ?_⟩
    refine iff_of_false (fun hok => ?_) (not_not_intro (hiff.mp hov))
    rw [hres] at hok
    cases hok
  · have hcond : ¬ ((true : Bool) = true ∧
        ∃ bk ∈ existing, is_overlapping_active bk room cin cout) :=
      fun hc => hov hc.2
    have hres : booking_serializer_validate existing true room cin cout today
        = Except.ok () := by
      simp only [booking_serializer_validate, if_neg hd1, if_neg hd2]
      exact if_neg (fun hc => hov hc.2)
    refine ⟨?_, iff_of_true hres (fun hr => hov (hiff.mpr hr))⟩
    refine iff_of_false (fun herr => ?_) (fun hr => hov (hiff.mpr hr))
    rw [hres] at herr
    cases herr

/-- C2 witness: the amended statement at concrete inputs — with the
pending booking on days 10 to 20 in the table, requesting room 1 for days
12 to 18 (today being day 0) is rejected as unavailable, and with an empty
table the same request passes. -/
theorem serializer_availability_iff_witness :
    booking_serializer_validate [overlappingPendingBooking] true 1 12 18 0
      = .error .room_unavailable ∧
    booking_serializer_validate [] true 1 12 18 0 = Except.ok () :=
  ⟨(serializer_availability_iff [overlappingPendingBooking] 1 12 18 0
      (by decide) (by decide)).1.mpr
      ⟨overlappingPendingBooking, by decide, by decide⟩,
   (serializer_availability_iff [] 1 12 18 0 (by decide) (by decide)).2.mpr
      (by simp)⟩

/-- C9 counterexample: a 40-night stay on future dates — the claim says
date validation rejects any stay over the 30-day maximum, but the REST
creation path BookingSerializer.validate has no duration check and accepts
it. -/
theorem serializer_validate_skips_duration_check :
    ((41 : Int) - 1 > 30) ∧
    booking_serializer_validate [] true 1 1 41 0 = Except.ok () := by
  constructor
  · decide
  · rfl

/-- C9 (amended): BookingValidationMixin.validate_dates fails exactly on
the three defects — a past check-in fails with the past-date error, a
check-out not after check-in fails with the ordering error, a stay longer
than 30 days fails with the maximum-duration error, and a request with
none of these defects passes; the serializer path
BookingSerializer.validate, however, enforces only the first two defects
and BookingService.create_booking performs no date validation at all. -/
theorem validate_dates_characterization (cin cout today : Int) :
    (cin < today → validate_dates cin cout today = .error .check_in_in_past) ∧
    (today ≤ cin → cout ≤ cin →
      validate_dates cin cout today = .error .check_out_not_after_check_in) ∧
    (today ≤ cin → cin < cout → 30 < cout - cin →
      validate_dates cin cout today = .error .stay_exceeds_maximum) ∧
    (today ≤ cin → cin < cout → cout - cin ≤ 30 →
      validate_dates cin cout today = Except.ok ()) := by
  refine ⟨fun h => ?_, fun h1 h2 => ?_, fun h1 h2 h3 => ?_, fun h1 h2 h3 => ?_⟩
  · simp [validate_dates, h]
  · simp [validate_dates, not_lt.mpr h1, h2]
  · simp [validate_dates, not_lt.mpr h1, not_le.mpr h2, h3]
  · simp [validate_dates, not_lt.mpr h1, not_le.mpr h2, not_lt.mpr h3]

/-- C9 witness: the characterization at concrete inputs — check-in on day
3 before today (day 5) is rejected as past; days 10 to 10 are rejected for
ordering; days 10 to 45 exceed the maximum; days 10 to 20 pass. -/
theorem validate_dates_characterization_witness :
    validate_dates 3 9 5 = .error .check_in_in_past ∧
    validate_dates 10 10 5 = .error .check_out_not_after_check_in ∧
    validate_dates 10 45 5 = .error .stay_exceeds_maximum ∧
    validate_dates 10 20 5 = Except.ok () :=
  ⟨(validate_dates_characterization 3 9 5).1 (by decide),
   (validate_dates_characterization 10 10 5).2.1 (by decide) (by decide),
   (validate_dates_characterization 10 45 5).2.2.1 (by decide) (by decide)
     (by decide),
   (validate_dates_characterization 10 20 5).2.2.2 (by decide) (by decide)
     (by decide)⟩

/-- Pointwise update of the room availability flags
(`room.is_available = v; room.save()`). -/
def set_room_flag (rooms : Nat → Bool) (room : Nat) (v : Bool) : Nat → Bool :=
  fun r => if r = room then v else rooms r

/-- The pre_save receiver update_room_availability
(bookings/signals.py lines 6-35).  `rooms` maps a room id to its cached
is_available flag; `old` is the stored row for an existing booking (none
for a new one); `inst` is the instance being saved.  A transition into
cancelled or no_show frees the room; a room change frees the old room and,
for a non-terminal status, occupies the new one; a new non-terminal
booking occupies its room.  No branch handles a transition into
checked_out on an unchanged room. -/
def update_room_availability (rooms : Nat → Bool) (old : Option Booking)
    (inst : Booking) : Nat → Bool :=
  match old with
  | some old_instance =>
    let rooms1 :=
      if inst.status ∈ [BookingStatus.cancelled, BookingStatus.no_show] ∧
          old_instance.status ∉ [BookingStatus.cancelled, BookingStatus.no_show]
        then set_room_flag rooms inst.room true
      else rooms
    if old_instance.room ≠ inst.room then
      let rooms2 := set_room_flag rooms1 old_instance.room true
      if inst.status ∉ [BookingStatus.cancelled, BookingStatus.no_show,
                        BookingStatus.checked_out]
        then set_room_flag rooms2 inst.room false
      else rooms2
    else rooms1
  | none =>
    if inst.status ∉ [BookingStatus.cancelled, BookingStatus.no_show]
      then set_room_flag rooms inst.room false
    else rooms

/-- C8 counterexample: a checked-in booking on room 1 transitions to
checked_out (room unchanged, flag currently false) — the availability
receiver leaves the flag false, so checkout does not mark the freed room
available, contrary to the claim. -/
theorem checkout_does_not_free_room :
    update_room_availability (fun _ => false)
      (some { sampleBooking with status := BookingStatus.checked_in })
      (({ sampleBooking with status := BookingStatus.checked_in } : Booking).check_out 9)
      sampleBooking.room = false := by
  rfl

/-- C8 (amended): when a booking transitions into cancelled or no_show
from a status outside that pair, the availability receiver sets the
booking's room's is_available flag to true (shown here for an unchanged
room assignment); a transition into checked_out takes no such branch and
leaves the flag as it was. -/
theorem cancel_or_no_show_frees_room (rooms : Nat → Bool) (old inst : Booking)
    (hroom : old.room = inst.room)
    (hold : old.status ∉ [BookingStatus.cancelled, BookingStatus.no_show])
    (hnew : inst.status ∈ [BookingStatus.cancelled, BookingStatus.no_show]) :
    update_room_availability rooms (some old) inst inst.room = true := by
  have hcond : inst.status ∈ [BookingStatus.cancelled, BookingStatus.no_show] ∧
      old.status ∉ [BookingStatus.cancelled, BookingStatus.no_show] :=
    ⟨hnew, hold⟩
  simp only [update_room_availability, if_pos hcond, hroom]
  have hne : ¬ (inst.room ≠ inst.room) := fun h => h rfl
  simp [if_neg hne, set_room_flag]

/-- C8 witness: the amended statement at a concrete input — cancelling a
confirmed booking on room 1 flips the room's flag to true. -/
theorem cancel_or_no_show_frees_room_witness :
    update_room_availability (fun _ => false)
      (some { sampleBooking with status := BookingStatus.confirmed })
      (({ sampleBooking with status := BookingStatus.confirmed } : Booking).cancel 9)
      ((({ sampleBooking with status := BookingStatus.confirmed } : Booking).cancel 9)).room
      = true :=
  cancel_or_no_show_frees_room (fun _ => false)
    { sampleBooking with status := BookingStatus.confirmed }
    (({ sampleBooking with status := BookingStatus.confirmed } : Booking).cancel 9)
    (by decide) (by decide) (by decide)

/-- A wall-clock timestamp with one-second resolution, the precision
timezone.now() is formatted at in generate_booking_number. -/
structure Timestamp where
  year : Nat
  month : Nat
  day : Nat
  hour : Nat
  minute : Nat
  second : Nat
deriving DecidableEq, Repr

/-- Two-digit zero padding, as the %m %d %H %M %S strftime directives
produce. -/
def pad2 (n : Nat) : String :=
  if n < 10 then "0" ++ toString n else toString n

/-- Booking.generate_booking_number (bookings/models.py lines 92-95):
"BK" followed by now.strftime of %Y%m%d then %H%M%S — a function of the
current wall-clock second only. -/
def generate_booking_number (now : Timestamp) : String :=
  "BK" ++ toString now.year ++ pad2 now.month ++ pad2 now.day ++
    pad2 now.hour ++ pad2 now.minute ++ pad2 now.second

/-- Booking.save (bookings/models.py lines 86-90): assigns a generated
booking number when none is set, and otherwise leaves the stored number
untouched. -/
def booking_save (b : Booking) (now : Timestamp) : Booking :=
  if b.booking_number = "" then
    { b with booking_number := generate_booking_number now }
  else b

/-- C10: two distinct unsaved bookings (here for different rooms) saved
within the same wall-clock second are both assigned the identical booking
number BK20250601120000 — the generator depends only on the current
second, so the claimed distinctness fails (the database unique constraint
then rejects the second row instead of producing a distinct number). -/
theorem booking_number_collision_same_second :
    ({ sampleBooking with booking_number := "", room := 1 } : Booking)
        ≠ { sampleBooking with booking_number := "", room := 2 } ∧
    (booking_save { sampleBooking with booking_number := "", room := 1 }
        { year := 2025, month := 6, day := 1, hour := 12, minute := 0,
          second := 0 }).booking_number = "BK20250601120000" ∧
    (booking_save { sampleBooking with booking_number := "", room := 2 }
        { year := 2025, month := 6, day := 1, hour := 12, minute := 0,
          second := 0 }).booking_number = "BK20250601120000" := by
  refine ⟨by decide, by rfl, by rfl⟩

end HotelBooking
